import Mathlib

/-!
Shallow embedding of the rust-lrc local-resource and reputation engine
(src/src/resources). Wall-clock instants are modelled as natural numbers of
seconds; every function that reads the ambient clock in the source takes an
explicit `now` parameter. Rust f64 values are modelled as rationals; u64
arithmetic that can wrap is modelled with an explicit modulus 2^64
(release-profile semantics). Methods taking `&mut self` are modelled as
functions returning a (result, new state) pair, so post-error states stay
observable.
-/

namespace Lrc

/-- Seconds since an arbitrary epoch; stands in for std::time::Instant. -/
abbrev Instant := Nat

def U64LIMIT : Nat := 2 ^ 64

/-- Wrapping u64 subtraction (release-profile semantics of a - b on u64). -/
def u64sub (a b : Nat) : Nat := (a + U64LIMIT - b) % U64LIMIT

/-- Wrapping u64 addition (release-profile semantics of a + b on u64). -/
def u64add (a b : Nat) : Nat := (a + b) % U64LIMIT

/-- Instant::checked_duration_since: some (a - b) when b is not later than a. -/
def checkedDurationSince (a b : Instant) : Option Nat :=
  if b ≤ a then some (a - b) else none

def MAX_MILLI_SATOSHI : Nat := 21000000 * 1000

inductive Endorsement
  | EndorsementNone
  | EndorsementFalse
  | EndorsementTrue
deriving DecidableEq, Repr

inductive ForwardOutcome
  | ForwardOutcomeNoResources
  | ForwardOutcomeUnendorsed
  | ForwardOutcomeEndorsed
deriving DecidableEq, Repr

inductive ErrDecayingAverage
  | TimeAdditionError
deriving DecidableEq, Repr

inductive ErrBucketing
  | ProtocolLimits
  | ProtectedPercentage
  | NoInFlightLiquidity
  | NoHTLCSlotsOccupied
deriving DecidableEq, Repr

inductive ErrReputation
  | ResolutionNotFound
deriving DecidableEq, Repr

def exceptIsOk {ε α : Type _} : Except ε α → Bool
  | .ok _ => true
  | .error _ => false

def exceptErrorOf {ε α : Type _} : Except ε α → Option ε
  | .ok _ => none
  | .error e => some e

structure ProposedHTLC where
  incoming_channel : Nat
  outgoing_channel : Nat
  incoming_index : Nat
  incoming_endorsed : Endorsement
  incoming_amount_msat : Nat
  outgoing_amount_msat : Nat
  cltv_expiry_delta : Nat
deriving DecidableEq, Repr

def ProposedHTLC.forwarding_fee (p : ProposedHTLC) : Nat :=
  u64sub p.incoming_amount_msat p.outgoing_amount_msat

structure InFlightHTLC where
  timestamp_added : Instant
  outgoing_decision : ForwardOutcome
  proposed_htlc : ProposedHTLC
deriving DecidableEq, Repr

structure ResolvedHTLC where
  timestamp_settled : Instant
  incoming_index : Nat
  incoming_channel : Nat
  outgoing_index : Nat
  outgoing_channel : Nat
  success : Bool
deriving DecidableEq, Repr

structure IncomingReputation where
  incoming_revenue : ℚ
  in_flight_risk : ℚ
deriving DecidableEq

structure ReputationCheck where
  incoming_reputation : IncomingReputation
  outgoing_revenue : ℚ
  htlc_risk : ℚ
deriving DecidableEq

def ReputationCheck.sufficient_reputation (rc : ReputationCheck) : Bool :=
  decide (rc.incoming_reputation.incoming_revenue >
    rc.outgoing_revenue + rc.incoming_reputation.in_flight_risk + rc.htlc_risk)

structure ForwardDecision where
  reputation_check : ReputationCheck
  forward_outcome : ForwardOutcome
deriving DecidableEq

structure ChannelInfo where
  in_flight_htlc_limit : Nat
  in_flight_liquidity_limit : Nat
deriving DecidableEq, Repr

/--
The decaying scalar. The source computes decay_rate = 0.5^(2/period) in
floating point at construction; since the (buggy) update below never takes
the branch that reads it, the rate is kept as an abstract rational field.
-/
structure DecayingAverage where
  last_update : Instant
  value : ℚ
  decay_rate : ℚ
deriving DecidableEq

/-- Source DecayingAverage::update: the elapsed duration is computed as
update_time.sub(update_time), which is always zero, so the early return is
always taken. -/
def DecayingAverage.update (da : DecayingAverage) (update_time : Instant) :
    DecayingAverage :=
  let last_update_diff := update_time - update_time
  if last_update_diff = 0 then da
  else { da with value := da.value * da.decay_rate ^ last_update_diff,
                 last_update := update_time }

/-- Source DecayingAverage::add_time: rejects whenever
last_update.checked_duration_since(specific_timestamp) is some, that is
whenever specific_timestamp is not later than last_update. -/
def DecayingAverage.add_time (da : DecayingAverage) (value : ℚ)
    (specific_timestamp : Instant) :
    Except ErrDecayingAverage Bool × DecayingAverage :=
  if !(checkedDurationSince da.last_update specific_timestamp).isNone then
    (.error .TimeAdditionError, da)
  else
    let da1 := da.update specific_timestamp
    (.ok true, { da1 with value := da1.value + value,
                          last_update := specific_timestamp })

/-- Source DecayingAverage::add: calls add_time at the current instant and
discards its Result. -/
def DecayingAverage.add (da : DecayingAverage) (value : ℚ) (now : Instant) :
    DecayingAverage :=
  (da.add_time value now).2

def DecayingAverage.get_value (da : DecayingAverage) (now : Instant) :
    ℚ × DecayingAverage :=
  let da1 := da.update now
  (da1.value, da1)

/-- The four counters guarded by the mutex inside BucketResourceManager;
the mutex itself is a concurrency artifact outside this model. -/
structure MutBucketResourceManager where
  general_liquidity_msat : Nat
  general_slots : Nat
  in_flight_liquidity_msat : Nat
  in_flight_slots : Nat
deriving DecidableEq, Repr

/-- Source add_htlc: the counter sums are u64 additions, so in the release
profile they wrap around 2^64 both in the admission comparison and in the
stored counters. -/
def MutBucketResourceManager.add_htlc (b : MutBucketResourceManager)
    (protected_flag : Bool) (htlc_amount_msat : Nat) :
    Bool × MutBucketResourceManager :=
  if protected_flag then (true, b)
  else if u64add b.in_flight_liquidity_msat htlc_amount_msat > b.general_liquidity_msat then
    (false, b)
  else if u64add b.in_flight_slots 1 > b.general_slots then (false, b)
  else
    (true, { b with
             in_flight_liquidity_msat := u64add b.in_flight_liquidity_msat htlc_amount_msat,
             in_flight_slots := u64add b.in_flight_slots 1 })

def MutBucketResourceManager.remove_htlc (b : MutBucketResourceManager)
    (protected_flag : Bool) (htlc_amount_msat : Nat) :
    Except ErrBucketing Bool × MutBucketResourceManager :=
  if protected_flag then (.ok true, b)
  else if b.in_flight_liquidity_msat < htlc_amount_msat then
    (.error .NoInFlightLiquidity, b)
  else if b.in_flight_slots = 0 then (.error .NoHTLCSlotsOccupied, b)
  else
    (.ok true, { b with
                 in_flight_liquidity_msat := b.in_flight_liquidity_msat - htlc_amount_msat,
                 in_flight_slots := b.in_flight_slots - 1 })

/-- HashMap insert with replacement, modelled on an association list. -/
def listInsert (l : List (Nat × InFlightHTLC)) (k : Nat) (v : InFlightHTLC) :
    List (Nat × InFlightHTLC) :=
  (k, v) :: l.filter (fun q => q.1 != k)

structure ReputationTracker where
  revenue : DecayingAverage
  in_flight_htlcs : List (Nat × InFlightHTLC)
  block_time : ℚ
  resolution_period : Nat
deriving DecidableEq

def ReputationTracker.outstanding_risk (block_time : ℚ)
    (proposed_htlc : ProposedHTLC) (resolution_period : Nat) : ℚ :=
  ((proposed_htlc.forwarding_fee : ℚ) * (proposed_htlc.cltv_expiry_delta : ℚ) *
      block_time * 60) / (resolution_period : ℚ)

def ReputationTracker.in_flight_htlc_risk (rt : ReputationTracker) : ℚ :=
  rt.in_flight_htlcs.foldl
    (fun acc q =>
      if q.2.proposed_htlc.incoming_endorsed = Endorsement.EndorsementTrue then
        acc + ReputationTracker.outstanding_risk rt.block_time q.2.proposed_htlc
          rt.resolution_period
      else acc) 0

/-- Source ReputationTracker::effective_fees. resolution_time is an Instant
difference (the source panics when settled precedes added; usage below keeps
settled at or after added). The opportunity cost subtracts and divides in u64
before the cast to f64, so resolutions faster than the resolution period wrap
around 2^64. -/
def ReputationTracker.effective_fees (resolution_period : Nat)
    (timestamp_settled : Instant) (htlc : InFlightHTLC) (success : Bool) : ℚ :=
  let resolution_time := timestamp_settled - htlc.timestamp_added
  let resolution_period_sec := resolution_period
  let fee : ℚ := (htlc.proposed_htlc.forwarding_fee : ℚ)
  let opportunity_cost : ℚ :=
    ((u64sub resolution_time resolution_period_sec / resolution_period_sec : Nat) : ℚ) * fee
  if htlc.proposed_htlc.incoming_endorsed = Endorsement.EndorsementTrue ∧ success then
    fee - opportunity_cost
  else if htlc.proposed_htlc.incoming_endorsed = Endorsement.EndorsementTrue then
    -1 * opportunity_cost
  else if success then
    (if resolution_time ≤ resolution_period_sec then fee else 0)
  else 0

def ReputationTracker.add_inflight (rt : ReputationTracker)
    (proposed_htlc : ProposedHTLC) (outgoing_decision : ForwardOutcome)
    (now : Instant) : Except ErrReputation Bool × ReputationTracker :=
  let in_flight_htlc : InFlightHTLC :=
    { timestamp_added := now
      outgoing_decision := outgoing_decision
      proposed_htlc := proposed_htlc }
  (.ok true,
    { rt with in_flight_htlcs :=
        listInsert rt.in_flight_htlcs proposed_htlc.incoming_index in_flight_htlc })

def ReputationTracker.resolve_inflight (rt : ReputationTracker)
    (resolved_htlc : ResolvedHTLC) (now : Instant) :
    Except ErrReputation InFlightHTLC × ReputationTracker :=
  match rt.in_flight_htlcs.lookup resolved_htlc.incoming_index with
  | some in_flight_htlc =>
      let effective_fees := ReputationTracker.effective_fees rt.resolution_period
        resolved_htlc.timestamp_settled in_flight_htlc resolved_htlc.success
      (.ok in_flight_htlc,
        { rt with
          in_flight_htlcs :=
            rt.in_flight_htlcs.filter (fun q => q.1 != resolved_htlc.incoming_index)
          revenue := rt.revenue.add effective_fees now })
  | none => (.error .ResolutionNotFound, rt)

def ReputationTracker.incoming_reputation (rt : ReputationTracker)
    (now : Instant) : IncomingReputation × ReputationTracker :=
  let g := rt.revenue.get_value now
  ({ incoming_revenue := g.1, in_flight_risk := rt.in_flight_htlc_risk },
   { rt with revenue := g.2 })

structure TargetChannelTracker where
  revenue : DecayingAverage
  block_time : ℚ
  resolution_period : Nat
  resource_buckets : MutBucketResourceManager
deriving DecidableEq

def TargetChannelTracker.add_inflight (tt : TargetChannelTracker)
    (incoming_reputation : IncomingReputation) (proposed_htlc : ProposedHTLC)
    (now : Instant) : ForwardDecision × TargetChannelTracker :=
  let g := tt.revenue.get_value now
  let reputation_check : ReputationCheck :=
    { incoming_reputation := incoming_reputation
      outgoing_revenue := g.1
      htlc_risk := ReputationTracker.outstanding_risk tt.block_time proposed_htlc
        tt.resolution_period }
  let htlc_protected := reputation_check.sufficient_reputation &&
    decide (proposed_htlc.incoming_endorsed = Endorsement.EndorsementTrue)
  let r := tt.resource_buckets.add_htlc htlc_protected proposed_htlc.outgoing_amount_msat
  let can_forward := r.1
  let outcome :=
    if !can_forward then ForwardOutcome.ForwardOutcomeNoResources
    else if htlc_protected then ForwardOutcome.ForwardOutcomeEndorsed
    else ForwardOutcome.ForwardOutcomeUnendorsed
  ({ reputation_check := reputation_check, forward_outcome := outcome },
   { tt with revenue := g.2, resource_buckets := r.2 })

/-- Source TargetChannelTracker::resolve_inflight: the Result returned by
remove_htlc is discarded; a failed remove leaves the counters unchanged. -/
def TargetChannelTracker.resolve_inflight (tt : TargetChannelTracker)
    (resolved_htlc : ResolvedHTLC) (in_flight_htlc : InFlightHTLC)
    (now : Instant) : Except Unit Bool × TargetChannelTracker :=
  if in_flight_htlc.outgoing_decision = ForwardOutcome.ForwardOutcomeNoResources then
    (.error (), tt)
  else
    let tt1 :=
      if resolved_htlc.success then
        { tt with revenue :=
            tt.revenue.add (in_flight_htlc.proposed_htlc.forwarding_fee : ℚ) now }
      else tt
    let r := tt1.resource_buckets.remove_htlc
      (decide (in_flight_htlc.outgoing_decision = ForwardOutcome.ForwardOutcomeEndorsed))
      in_flight_htlc.proposed_htlc.outgoing_amount_msat
    (.ok true, { tt1 with resource_buckets := r.2 })

def mapInsert {α : Type _} (m : Nat → Option α) (k : Nat) (v : α) :
    Nat → Option α :=
  fun q => if q = k then some v else m q

def singletonMap {α : Type _} (k : Nat) (v : α) : Nat → Option α :=
  fun q => if q = k then some v else none

structure ResourceManager where
  channel_reputation : Nat → Option ReputationTracker
  target_channels : Nat → Option TargetChannelTracker

/-- Source ResourceManager::forward_htlc. Note that the TargetChannelTracker
lookup uses proposed_htlc.incoming_channel, exactly as the source does. -/
def ResourceManager.forward_htlc (rm : ResourceManager)
    (proposed_htlc : ProposedHTLC) (chan_info : ChannelInfo) (now : Instant) :
    Except Unit ForwardDecision × ResourceManager :=
  if proposed_htlc.outgoing_amount_msat > MAX_MILLI_SATOSHI then (.error (), rm)
  else
    match rm.channel_reputation proposed_htlc.incoming_channel with
    | none => (.error (), rm)
    | some channel_reputation_tracker =>
      match rm.target_channels proposed_htlc.incoming_channel with
      | none => (.error (), rm)
      | some target_channel_tracker =>
        let ir := channel_reputation_tracker.incoming_reputation now
        let fd := target_channel_tracker.add_inflight ir.1 proposed_htlc now
        let ai := ir.2.add_inflight proposed_htlc fd.1.forward_outcome now
        let rm1 : ResourceManager :=
          { channel_reputation :=
              mapInsert rm.channel_reputation proposed_htlc.incoming_channel ai.2
            target_channels :=
              mapInsert rm.target_channels proposed_htlc.incoming_channel fd.2 }
        match ai.1 with
        | .error _ => (.error (), rm1)
        | .ok _ => (.ok fd.1, rm1)

/-- Source ResourceManager::resolve_htlc. The incoming tracker is mutated in
place by resolve_inflight before the NoResources and channel-mismatch checks,
so those error returns keep the mutated tracker. -/
def ResourceManager.resolve_htlc (rm : ResourceManager)
    (resolved_htlc : ResolvedHTLC) (now : Instant) :
    Except Unit InFlightHTLC × ResourceManager :=
  match rm.channel_reputation resolved_htlc.incoming_channel with
  | none => (.error (), rm)
  | some channel_reputation_tracker =>
    let ri := channel_reputation_tracker.resolve_inflight resolved_htlc now
    let rm1 : ResourceManager :=
      { rm with channel_reputation :=
          mapInsert rm.channel_reputation resolved_htlc.incoming_channel ri.2 }
    match ri.1 with
    | .error _ => (.error (), rm1)
    | .ok in_flight =>
      if in_flight.outgoing_decision = ForwardOutcome.ForwardOutcomeNoResources then
        (.error (), rm1)
      else if in_flight.proposed_htlc.outgoing_channel ≠ resolved_htlc.outgoing_channel then
        (.error (), rm1)
      else
        match rm1.target_channels in_flight.proposed_htlc.outgoing_channel with
        | none => (.ok in_flight, rm1)
        | some target_channel_tracker =>
          let tr := target_channel_tracker.resolve_inflight resolved_htlc in_flight now
          let rm2 : ResourceManager :=
            { rm1 with target_channels :=
                mapInsert rm1.target_channels in_flight.proposed_htlc.outgoing_channel tr.2 }
          match tr.1 with
          | .error _ => (.error (), rm2)
          | .ok _ => (.ok in_flight, rm2)


/-! Concrete states used to evaluate the model at specific inputs. -/

def rt0 : ReputationTracker :=
  { revenue := { last_update := 0, value := 0, decay_rate := 1/2 }
    in_flight_htlcs := []
    block_time := 600
    resolution_period := 90 }

def tt0 : TargetChannelTracker :=
  { revenue := { last_update := 0, value := 0, decay_rate := 1/2 }
    block_time := 600
    resolution_period := 90
    resource_buckets := { general_liquidity_msat := 1000000, general_slots := 100,
                          in_flight_liquidity_msat := 0, in_flight_slots := 0 } }

/-- Unendorsed HTLC from channel 1 to channel 2 with a 1000 msat fee. -/
def p0 : ProposedHTLC :=
  { incoming_channel := 1, outgoing_channel := 2, incoming_index := 7
    incoming_endorsed := Endorsement.EndorsementFalse
    incoming_amount_msat := 2000, outgoing_amount_msat := 1000
    cltv_expiry_delta := 40 }

/-- The same HTLC forwarded as endorsed. -/
def p1 : ProposedHTLC := { p0 with incoming_endorsed := Endorsement.EndorsementTrue }

def ci0 : ChannelInfo := { in_flight_htlc_limit := 100, in_flight_liquidity_limit := 1000000 }

/-- Manager with the ReputationTracker under channel id 1 and the
TargetTracker under channel id 2 (the outgoing channel of p0). -/
def rmA : ResourceManager :=
  { channel_reputation := singletonMap 1 rt0, target_channels := singletonMap 2 tt0 }

/-- Manager with both trackers under channel id 1 (the incoming channel of
p0); no TargetTracker is registered under the outgoing channel id 2. -/
def rmB : ResourceManager :=
  { channel_reputation := singletonMap 1 rt0, target_channels := singletonMap 1 tt0 }

def ifh1 : InFlightHTLC :=
  { timestamp_added := 0, outgoing_decision := ForwardOutcome.ForwardOutcomeEndorsed
    proposed_htlc := p1 }

def ifhN : InFlightHTLC :=
  { timestamp_added := 0, outgoing_decision := ForwardOutcome.ForwardOutcomeNoResources
    proposed_htlc := p0 }

def ifhU : InFlightHTLC :=
  { timestamp_added := 0, outgoing_decision := ForwardOutcome.ForwardOutcomeUnendorsed
    proposed_htlc := p0 }

/-- Tracker holding the NoResources in-flight record under index 7. -/
def rtC : ReputationTracker := { rt0 with in_flight_htlcs := [(7, ifhN)] }

def rmC : ResourceManager :=
  { channel_reputation := singletonMap 1 rtC, target_channels := fun _ => none }

def resolved0 : ResolvedHTLC :=
  { timestamp_settled := 10, incoming_index := 7, incoming_channel := 1
    outgoing_index := 0, outgoing_channel := 2, success := true }

def resolvedE : ResolvedHTLC := { resolved0 with success := false }

/-- Case analysis of the outcome classification used by
TargetChannelTracker.add_inflight, over the two booleans it branches on. -/
theorem forwardOutcomeCases (cf hp : Bool) :
    ((if !cf then ForwardOutcome.ForwardOutcomeNoResources
      else if hp then ForwardOutcome.ForwardOutcomeEndorsed
      else ForwardOutcome.ForwardOutcomeUnendorsed) =
        ForwardOutcome.ForwardOutcomeNoResources ↔ cf = false) ∧
    ((if !cf then ForwardOutcome.ForwardOutcomeNoResources
      else if hp then ForwardOutcome.ForwardOutcomeEndorsed
      else ForwardOutcome.ForwardOutcomeUnendorsed) =
        ForwardOutcome.ForwardOutcomeEndorsed ↔ cf = true ∧ hp = true) ∧
    ((if !cf then ForwardOutcome.ForwardOutcomeNoResources
      else if hp then ForwardOutcome.ForwardOutcomeEndorsed
      else ForwardOutcome.ForwardOutcomeUnendorsed) =
        ForwardOutcome.ForwardOutcomeUnendorsed ↔ cf = true ∧ hp = false) := by
  cases cf <;> cases hp <;> simp

/-- Claim C1: the claim says forward_htlc resolves the outgoing
TargetTracker by proposed.outgoing_channel and fails when nothing is
registered there. The code instead indexes target_channels by
proposed.incoming_channel: with the target tracker registered under the
outgoing channel id 2 (manager rmA) the forward fails, and with it
registered only under the incoming channel id 1 (manager rmB) the forward
succeeds even though no tracker sits under the outgoing channel. -/
theorem forward_htlc_target_lookup_uses_incoming_channel :
    exceptIsOk (rmA.forward_htlc p0 ci0 0).1 = false ∧
    exceptIsOk (rmB.forward_htlc p0 ci0 0).1 = true := by
  decide

/-- Claim C2: the claim says get and add first decay the stored value by
r^Δt and advance last_update. In the code, update computes the elapsed
duration as update_time.sub(update_time), which is always zero, so no decay
is ever applied: with value 100, decay rate one half (half-life period
P = 2 s) and one second (= P/2) elapsed, get_value returns 100 with
last_update still 0, where the claim requires 50. -/
theorem decaying_average_decay_never_applied :
    (DecayingAverage.get_value { last_update := 0, value := 100, decay_rate := 1/2 } 1).1 = 100 ∧
    (DecayingAverage.get_value { last_update := 0, value := 100, decay_rate := 1/2 } 1).2.last_update = 0 := by
  decide

/-- Claim C3: the claim says the opportunity cost is computed in
signed/floating-point arithmetic, so an endorsed success with r_time = 0
returns 2 times the fee. The code subtracts and divides in u64 first:
with fee 1000, r_time 0 and resolution period 90 the subtraction wraps to
2^64 - 90, the integer quotient is 204963823041217239, and the returned
effective fee is 1000 - 204963823041217239000, not 2000. -/
theorem effective_fees_unsigned_wrap :
    ReputationTracker.effective_fees 90 0 ifh1 true = 1000 - 204963823041217239000 := by
  norm_num [ReputationTracker.effective_fees, ifh1, p1, p0, ProposedHTLC.forwarding_fee,
    u64sub, U64LIMIT]

/-- Claim C4: the claim says add_at fails iff t < last_update, so adding at
t exactly equal to last_update succeeds. The code rejects whenever
last_update.checked_duration_since(t) is representable, that is whenever
t ≤ last_update: at t = last_update = 5 it returns TimeAdditionError. -/
theorem add_time_rejects_equal_timestamp :
    exceptErrorOf (DecayingAverage.add_time { last_update := 5, value := 100, decay_rate := 1/2 } 1 5).1
      = some ErrDecayingAverage.TimeAdditionError := by
  decide

/-- Claim C5: sufficient_reputation holds iff incoming revenue strictly
exceeds outgoing revenue plus in-flight risk plus htlc risk (ties fail),
and add_inflight classifies the forward as NoResources iff the bucket
declined, as Endorsed iff the bucket admitted and the protected flag
(sufficient reputation together with endorsement True) held, and as
Unendorsed iff the bucket admitted and the protected flag did not hold. -/
theorem sufficient_reputation_and_outcome_classification :
    (∀ rc : ReputationCheck, rc.sufficient_reputation = true ↔
        rc.incoming_reputation.incoming_revenue >
          rc.outgoing_revenue + rc.incoming_reputation.in_flight_risk + rc.htlc_risk) ∧
    (∀ (tt : TargetChannelTracker) (ir : IncomingReputation) (p : ProposedHTLC) (now : Instant),
      let rc : ReputationCheck :=
        { incoming_reputation := ir
          outgoing_revenue := (tt.revenue.get_value now).1
          htlc_risk := ReputationTracker.outstanding_risk tt.block_time p tt.resolution_period }
      let htlc_protected := rc.sufficient_reputation &&
        decide (p.incoming_endorsed = Endorsement.EndorsementTrue)
      let admitted := (tt.resource_buckets.add_htlc htlc_protected p.outgoing_amount_msat).1
      let outcome := (tt.add_inflight ir p now).1.forward_outcome
      (htlc_protected = true ↔
        rc.sufficient_reputation = true ∧ p.incoming_endorsed = Endorsement.EndorsementTrue) ∧
      (outcome = ForwardOutcome.ForwardOutcomeNoResources ↔ admitted = false) ∧
      (outcome = ForwardOutcome.ForwardOutcomeEndorsed ↔
        admitted = true ∧ htlc_protected = true) ∧
      (outcome = ForwardOutcome.ForwardOutcomeUnendorsed ↔
        admitted = true ∧ htlc_protected = false)) := by
  constructor
  · intro rc
    simp [ReputationCheck.sufficient_reputation]
  · intro tt ir p now
    refine ⟨by simp [Bool.and_eq_true, decide_eq_true_eq], ?_⟩
    simp only [TargetChannelTracker.add_inflight]
    exact forwardOutcomeCases _ _

/-- Claim C6 counterexample: resolving the NoResources in-flight record of
manager rmC returns an error, yet the record is gone from the incoming
ReputationTracker and its revenue average now holds 1000 instead of 0, so
the observable state did change. -/
theorem resolve_htlc_error_mutates_state_cex :
    exceptIsOk (rmC.resolve_htlc resolved0 10).1 = false ∧
    (rmC.resolve_htlc resolved0 10).2.channel_reputation 1 =
      some { rtC with in_flight_htlcs := [],
                      revenue := { last_update := 10, value := 1000, decay_rate := 1/2 } } := by
  constructor
  · decide
  · norm_num [ResourceManager.resolve_htlc, rmC, rtC, rt0, singletonMap, mapInsert,
      ReputationTracker.resolve_inflight, resolved0, ifhN, p0,
      ReputationTracker.effective_fees, DecayingAverage.add, DecayingAverage.add_time,
      DecayingAverage.update, checkedDurationSince, ProposedHTLC.forwarding_fee,
      u64sub, U64LIMIT]
    split_ifs with h1 h2 <;> simp_all

/-- Claim C6 amended: whenever resolve_htlc returns an error after finding
the in-flight record (recorded outcome NoResources, or outgoing-channel
mismatch), the record has already been removed from the incoming
ReputationTracker and the effective fee has been added into its revenue
average through DecayingAverage.add; the mutation is not rolled back. -/
theorem resolve_htlc_error_after_removal_state (rm : ResourceManager)
    (resolved : ResolvedHTLC) (now : Instant)
    (crt : ReputationTracker) (ifh : InFlightHTLC)
    (h1 : rm.channel_reputation resolved.incoming_channel = some crt)
    (h2 : crt.in_flight_htlcs.lookup resolved.incoming_index = some ifh)
    (h3 : ifh.outgoing_decision = ForwardOutcome.ForwardOutcomeNoResources ∨
      ifh.proposed_htlc.outgoing_channel ≠ resolved.outgoing_channel) :
    exceptIsOk (rm.resolve_htlc resolved now).1 = false ∧
    (rm.resolve_htlc resolved now).2.channel_reputation resolved.incoming_channel =
      some { crt with
        in_flight_htlcs := crt.in_flight_htlcs.filter (fun q => q.1 != resolved.incoming_index),
        revenue := crt.revenue.add (ReputationTracker.effective_fees crt.resolution_period
          resolved.timestamp_settled ifh resolved.success) now } := by
  simp only [ResourceManager.resolve_htlc, h1, ReputationTracker.resolve_inflight, h2]
  rcases h3 with h3 | h3
  · rw [if_pos h3]
    exact ⟨rfl, by simp [mapInsert]⟩
  · by_cases h4 : ifh.outgoing_decision = ForwardOutcome.ForwardOutcomeNoResources
    · rw [if_pos h4]
      exact ⟨rfl, by simp [mapInsert]⟩
    · rw [if_neg h4, if_pos h3]
      exact ⟨rfl, by simp [mapInsert]⟩

/-- Claim C6 witness: the amended statement instantiated at manager rmC,
whose in-flight record under index 7 carries outcome NoResources. -/
theorem resolve_htlc_error_after_removal_state_witness :
    exceptIsOk (rmC.resolve_htlc resolved0 10).1 = false ∧
    (rmC.resolve_htlc resolved0 10).2.channel_reputation resolved0.incoming_channel =
      some { rtC with
        in_flight_htlcs := rtC.in_flight_htlcs.filter (fun q => q.1 != resolved0.incoming_index),
        revenue := rtC.revenue.add (ReputationTracker.effective_fees rtC.resolution_period
          resolved0.timestamp_settled ifhN resolved0.success) 10 } :=
  resolve_htlc_error_after_removal_state rmC resolved0 10 rtC ifhN rfl rfl (Or.inl rfl)

/-- Claim C7 counterexample: with zero in-flight liquidity booked in the
bucket, remove_htlc(false, 1000) fails with NoInFlightLiquidity, yet
TargetChannelTracker.resolve_inflight on an Unendorsed in-flight HTLC of
1000 msat returns success, so the bucket error is not propagated. -/
theorem bucket_error_swallowed_cex :
    exceptErrorOf (tt0.resource_buckets.remove_htlc false 1000).1 =
      some ErrBucketing.NoInFlightLiquidity ∧
    exceptIsOk (tt0.resolve_inflight resolvedE ifhU 10).1 = true := by
  decide

/-- Claim C7 amended: errors returned by BucketAllocator.remove_htlc inside
TargetTracker.resolve_inflight are discarded, not propagated: whenever the
in-flight outcome is not NoResources, resolve_inflight returns success even
if remove_htlc failed (a failed remove leaves the counters unchanged), so
no bucket error ever reaches resolve_htlc. -/
theorem target_resolve_inflight_swallows_bucket_errors
    (tt : TargetChannelTracker) (resolved : ResolvedHTLC) (ifh : InFlightHTLC)
    (now : Instant)
    (h : ifh.outgoing_decision ≠ ForwardOutcome.ForwardOutcomeNoResources) :
    (tt.resolve_inflight resolved ifh now).1 = .ok true := by
  simp only [TargetChannelTracker.resolve_inflight, if_neg h]

/-- Claim C7 witness: the amended statement instantiated at the tracker
tt0 whose bucket rejects the release of the Unendorsed in-flight HTLC. -/
theorem target_resolve_inflight_swallows_bucket_errors_witness :
    (tt0.resolve_inflight resolvedE ifhU 10).1 = .ok true :=
  target_resolve_inflight_swallows_bucket_errors tt0 resolvedE ifhU 10 (by decide)

/-- Claim C8 counterexample: with in_flight_liquidity = 5, general caps 10,
and amount = 2^64 - 1, the unbounded sum 5 + (2^64 - 1) exceeds the cap 10,
so the claim requires add_htlc(false, amount) to return false and leave the
state unchanged; the release-profile code instead wraps the sum to 4,
admits, and stores the corrupted counters 4 and 1. -/
theorem bucket_add_htlc_wrap_cex :
    MutBucketResourceManager.add_htlc
        { general_liquidity_msat := 10, general_slots := 10,
          in_flight_liquidity_msat := 5, in_flight_slots := 0 } false (2 ^ 64 - 1) =
      (true, { general_liquidity_msat := 10, general_slots := 10,
               in_flight_liquidity_msat := 4, in_flight_slots := 1 }) ∧
    ¬ (5 + (2 ^ 64 - 1) ≤ 10 ∧ 0 + 1 ≤ 10) := by
  decide

/-- Claim C8 amended: add_htlc(true, amount) admits without mutating any
counter, and add_htlc(false, amount) admits and stores both counters,
with the sums computed in wrapping u64 arithmetic, exactly when the wrapped
liquidity sum and the wrapped slot sum are within the general caps,
returning false with the state unchanged otherwise. -/
theorem bucket_add_htlc_wrapped_spec (b : MutBucketResourceManager) (amount : Nat) :
    b.add_htlc true amount = (true, b) ∧
    b.add_htlc false amount =
      (if u64add b.in_flight_liquidity_msat amount ≤ b.general_liquidity_msat ∧
          u64add b.in_flight_slots 1 ≤ b.general_slots then
         (true, { b with in_flight_liquidity_msat := u64add b.in_flight_liquidity_msat amount,
                         in_flight_slots := u64add b.in_flight_slots 1 })
       else (false, b)) := by
  refine ⟨rfl, ?_⟩
  simp only [MutBucketResourceManager.add_htlc, Bool.false_eq_true, if_false]
  split_ifs with h1 h2 h3 <;> first | rfl | omega

/-- Claim C9: remove_htlc(true, amount) is a no-op returning ok, and
remove_htlc(false, amount) fails with NoInFlightLiquidity when amount
exceeds in_flight_liquidity, then fails with NoHTLCSlotsOccupied when
in_flight_slots is zero, and otherwise decrements both counters; both
failures leave the state unchanged. -/
theorem bucket_remove_htlc_spec (b : MutBucketResourceManager) (amount : Nat) :
    b.remove_htlc true amount = (.ok true, b) ∧
    b.remove_htlc false amount =
      (if b.in_flight_liquidity_msat < amount then (.error ErrBucketing.NoInFlightLiquidity, b)
       else if b.in_flight_slots = 0 then (.error ErrBucketing.NoHTLCSlotsOccupied, b)
       else (.ok true,
         { b with in_flight_liquidity_msat := b.in_flight_liquidity_msat - amount,
                  in_flight_slots := b.in_flight_slots - 1 })) := by
  refine ⟨rfl, ?_⟩
  simp only [MutBucketResourceManager.remove_htlc, Bool.false_eq_true, if_false]

/-- Claim C10: ReputationTracker.add_inflight returns Ok on every input (a
duplicate incoming index silently replaces the previous record), and
therefore forward_htlc succeeds whenever the amount guard passes and both
tracker lookups succeed: the error branch after a successful target
decision is unreachable, so no bucket rollback is ever needed there. -/
theorem reputation_add_inflight_infallible :
    (∀ (rt : ReputationTracker) (p : ProposedHTLC) (oc : ForwardOutcome) (now : Instant),
        (rt.add_inflight p oc now).1 = .ok true) ∧
    (∀ (rm : ResourceManager) (p : ProposedHTLC) (ci : ChannelInfo) (now : Instant),
      p.outgoing_amount_msat ≤ MAX_MILLI_SATOSHI →
      (rm.channel_reputation p.incoming_channel).isSome = true →
      (rm.target_channels p.incoming_channel).isSome = true →
      exceptIsOk (rm.forward_htlc p ci now).1 = true) := by
  constructor
  · intro rt p oc now; rfl
  · intro rm p ci now hmax h1 h2
    rw [Option.isSome_iff_exists] at h1 h2
    obtain ⟨crt, h1⟩ := h1
    obtain ⟨tct, h2⟩ := h2
    simp only [ResourceManager.forward_htlc, h1, h2, if_neg (Nat.not_lt.mpr hmax)]
    rfl

/-- Claim C10 witness: forward_htlc applied to manager rmB at the concrete
HTLC p0, with the amount guard and both lookups discharged by evaluation. -/
theorem reputation_add_inflight_infallible_witness :
    exceptIsOk (rmB.forward_htlc p0 ci0 0).1 = true :=
  reputation_add_inflight_infallible.2 rmB p0 ci0 0 (by decide) rfl rfl

end Lrc
